import Mathlib

/-!
Verification of the emysound client against its specification: a shallow
embedding of the media-submission operations (insert, query), media-source
resolution, request construction and response handling, and the typed JSON
decoding of query results, translated from src/src/lib.rs and
src/src/main.rs.

External effects are explicit parameters: the filesystem is a function from
path to optional byte content, the HTTP transport is a function from the
constructed request to a response, and the textual JSON layer of the query
path is a function from response body to an optional decoded value.  Byte
buffers are lists of naturals; f32 values are modelled by an explicit type
with a NaN point and rational finite values, with IEEE ordered-comparison
semantics (any comparison involving NaN is false).
-/

namespace EmySound

/-- Model of `f32`: NaN, or a finite value modelled as a rational.  The
rationals are a superset of the finite f32 values; every concrete value the
claims use is exactly representable in both. -/
inductive F32 where
  | nan : F32
  | num (q : ℚ) : F32
deriving DecidableEq

/-- IEEE ordered less-or-equal on f32: false whenever either side is NaN. -/
def F32.le : F32 → F32 → Bool
  | F32.num a, F32.num b => decide (a ≤ b)
  | _, _ => false

/-- IEEE ordered greater-or-equal on f32: `a >= b` is `b <= a`, false
whenever either side is NaN. -/
def F32.ge (a b : F32) : Bool := F32.le b a

/-- Model of Rust `f32::to_string` (`Display`).  The exact digit rendering
belongs to the external float formatter; no claim depends on it, only on
the value being the caller-supplied one. -/
def F32.render : F32 → String
  | F32.nan => "NaN"
  | F32.num q => toString q

/-- The client's error taxonomy (spec section 4.4).  In the source these are
`anyhow` errors distinguished by construction site and message:
`invalidPath` is the error built when `Path::file_name` returns `None`,
`invalidArgument` is the `ensure!` failure on `min_confidence`, `ioError`
the file-read failure, `serviceRejected` the non-200 branch carrying status
and raw body text, `decodeError` the `res.json()` failure context. -/
inductive EmyError where
  | invalidPath : EmyError
  | invalidArgument : EmyError
  | ioError : EmyError
  | serviceRejected (status : Nat) (body : String) : EmyError
  | decodeError : EmyError
deriving DecidableEq

/-- Gap between covered intervals (src gap struct).  The source field `end`
is a Lean keyword and is rendered `end_` here; all other field names follow
the source. -/
structure Gap where
  start : F32
  end_ : F32
  is_on_edge : Bool
  length_in_seconds : F32
deriving DecidableEq

/-- Coverage detail of an audio match (src `AudioCoverage`). -/
structure AudioCoverage where
  query_match_starts_at : F32
  track_match_starts_at : F32
  query_coverage : Option F32
  track_coverage : Option F32
  query_coverage_length : F32
  track_coverage_length : F32
  query_discrete_coverage_length : F32
  track_discrete_coverage_length : F32
  query_length : F32
  track_length : F32
  query_gaps : List Gap
  track_gaps : List Gap
deriving DecidableEq

/-- Audio match of a query result (src `AudioMatch`; the JSON key of `id`
is `queryMatchId`). -/
structure AudioMatch where
  id : String
  coverage : AudioCoverage
deriving DecidableEq

/-- Matched track metadata (src `TrackInfo`; the JSON key of `length` is
`audioTrackLength`). -/
structure TrackInfo where
  id : String
  title : Option String
  artist : Option String
  length : F32
deriving DecidableEq

/-- One candidate match of a query (src `QueryResult`). -/
structure QueryResult where
  id : String
  track : TrackInfo
  audio : Option AudioMatch
deriving DecidableEq

/-- Media to submit (src `MediaSource`): a file path, or named in-memory
bytes.  Paths are Unix path strings; byte buffers are lists of naturals. -/
inductive MediaSource where
  | file (path : String) : MediaSource
  | bytes (file_name : String) (data : List Nat) : MediaSource

/-- Split a character list at every slash (model of Unix path component
splitting used by `Path::file_name`). -/
def splitSlash : List Char → List (List Char)
  | [] => [[]]
  | c :: rest =>
    match splitSlash rest, decide (c = '/') with
    | r, true => [] :: r
    | [], false => [[c]]
    | h :: t, false => (c :: h) :: t

/-- The normal components of a path: slash-separated pieces with empty
pieces and `.` pieces dropped, as in `std::path::Components`. -/
def pathComponents (path : String) : List String :=
  ((splitSlash path.data).map String.mk).filter fun c => !(c == "") && !(c == ".")

/-- Model of Rust `Path::file_name` on Unix paths: the last normal
component, or `none` when there is none or the path ends in `..`. -/
def fileName (path : String) : Option String :=
  match (pathComponents path).getLast? with
  | none => none
  | some c => if c = ".." then none else some c

/-- The filename-extraction step shared by `insert`, `query` and the CLI:
`Path::file_name` for a file source (failing with the invalid-path error),
the given name for a bytes source. -/
def resolveFileName : MediaSource → Except EmyError String
  | MediaSource.file path =>
    match fileName path with
    | some n => Except.ok n
    | none => Except.error EmyError.invalidPath
  | MediaSource.bytes n _ => Except.ok n

/-- The content-reading step: `tokio::fs::read` for a file source against
the ambient filesystem `fs` (failing with the I/O error when the path is
unreadable), the given bytes for a bytes source. -/
def resolveContent (fs : String → Option (List Nat)) :
    MediaSource → Except EmyError (List Nat)
  | MediaSource.file path =>
    match fs path with
    | some c => Except.ok c
    | none => Except.error EmyError.ioError
  | MediaSource.bytes _ d => Except.ok d

/-- Resolution of a media source to display name and payload, in the
source's order: name extraction first, then the read. -/
def resolveSource (fs : String → Option (List Nat)) (s : MediaSource) :
    Except EmyError (String × List Nat) :=
  match resolveFileName s with
  | Except.error e => Except.error e
  | Except.ok n =>
    match resolveContent fs s with
    | Except.error e => Except.error e
    | Except.ok c => Except.ok (n, c)

/-- An HTTP response as the operations observe it: status code and body
text. -/
structure HttpResponse where
  status : Nat
  body : String

/-- The configured API root (src `EMYSOUND_API`). -/
def EMYSOUND_API : String := "http://localhost:3340/api/v1.1/"

/-- The multipart request built by the library `insert`: text fields `Id`,
`Artist`, `Title`, `MediaType`, and a `file` part carrying the payload
under the resolved display name, sent with Basic auth and a JSON accept
header to the Tracks endpoint. -/
structure InsertRequest where
  url : String
  idField : String
  artist : String
  title : String
  mediaType : String
  fileName : String
  fileBytes : List Nat
  basicAuthUser : String
  basicAuthPass : String
  accept : String

/-- Request construction of the library `insert` (src lib.rs lines 70-98).
`id` is the `Uuid` argument in its canonical string form. -/
def buildInsertRequest (id artist title name : String) (content : List Nat) :
    InsertRequest :=
  { url := EMYSOUND_API ++ "Tracks"
    idField := id
    artist := artist
    title := title
    mediaType := "Audio"
    fileName := name
    fileBytes := content
    basicAuthUser := "ADMIN"
    basicAuthPass := ""
    accept := "application/json" }

/-- The multipart request built by the CLI `insert_track`: like the library
one but with the extra `meta` text field (ignored by the service) and the
`Id` field composed from the fresh UUID and the meta string. -/
structure InsertTrackRequest where
  url : String
  idField : String
  artist : String
  title : String
  mediaType : String
  metaField : String
  fileName : String
  fileBytes : List Nat
  basicAuthUser : String
  basicAuthPass : String
  accept : String

/-- The `Id` field value of the CLI insert: `format!("{uuid} {meta}")`. -/
def trackIdString (uuid meta : String) : String := uuid ++ " " ++ meta

/-- Request construction of the CLI `insert_track` (src main.rs lines
129-152). -/
def buildInsertTrackRequest (uuid meta artist title name : String)
    (content : List Nat) : InsertTrackRequest :=
  { url := "http://localhost:3340/api/v1.1/Tracks"
    idField := trackIdString uuid meta
    artist := artist
    title := title
    mediaType := "Audio"
    metaField := meta
    fileName := name
    fileBytes := content
    basicAuthUser := "ADMIN"
    basicAuthPass := ""
    accept := "application/json" }

/-- The query request built by the library `query`: a single `file`
multipart part plus URL query-string parameters, sent with Basic auth and
a JSON accept header to the Query endpoint. -/
structure QueryRequest where
  url : String
  params : List (String × String)
  fileName : String
  fileBytes : List Nat
  basicAuthUser : String
  basicAuthPass : String
  accept : String

/-- Request construction of the library `query` (src lib.rs lines 148-180):
the query-string parameters are exactly `mediaType=Audio`,
`minCoverage=<min_confidence.to_string()>`, `registerMatches=true`. -/
def buildQueryRequest (min_confidence : F32) (name : String)
    (content : List Nat) : QueryRequest :=
  { url := EMYSOUND_API ++ "Query"
    params := [("mediaType", "Audio"),
               ("minCoverage", F32.render min_confidence),
               ("registerMatches", "true")]
    fileName := name
    fileBytes := content
    basicAuthUser := "ADMIN"
    basicAuthPass := ""
    accept := "application/json" }

/-- The `ensure!` range check of `query`:
`min_confidence >= 0f32 && min_confidence <= 1f32`. -/
def checkConfidence (c : F32) : Bool :=
  F32.ge c (F32.num 0) && F32.le c (F32.num 1)

/-- Response handling of the library `insert` (src lib.rs lines 100-109):
`Ok(())` on status 200, otherwise the rejection error carrying status and
raw body text. -/
def handleInsertResponse (resp : HttpResponse) : Except EmyError Unit :=
  if resp.status = 200 then Except.ok ()
  else Except.error (EmyError.serviceRejected resp.status resp.body)

/-- Response handling of the library `query` (src lib.rs lines 182-191):
on status 200 the body goes to the JSON decoder (`decodeError` when it
fails); otherwise the rejection error carrying status and raw body text,
with no decode attempt. -/
def handleQueryResponse (decoder : String → Option (List QueryResult))
    (resp : HttpResponse) : Except EmyError (List QueryResult) :=
  if resp.status = 200 then
    match decoder resp.body with
    | some results => Except.ok results
    | none => Except.error EmyError.decodeError
  else Except.error (EmyError.serviceRejected resp.status resp.body)

/-- The library `insert` operation (src lib.rs lines 33-110): resolve the
source, build the multipart request, send it, and report success (unit) on
status 200. -/
def insert (fs : String → Option (List Nat))
    (transport : InsertRequest → HttpResponse) (source : MediaSource)
    (id artist title : String) : Except EmyError Unit :=
  match resolveSource fs source with
  | Except.error e => Except.error e
  | Except.ok (name, content) =>
    handleInsertResponse (transport (buildInsertRequest id artist title name content))

/-- The library `query` operation (src lib.rs lines 112-192): validate
`min_confidence` first, then resolve the source, build the request with its
query parameters, send it, and decode the response. -/
def query (fs : String → Option (List Nat))
    (decoder : String → Option (List QueryResult))
    (transport : QueryRequest → HttpResponse) (source : MediaSource)
    (min_confidence : F32) : Except EmyError (List QueryResult) :=
  if checkConfidence min_confidence then
    match resolveSource fs source with
    | Except.error e => Except.error e
    | Except.ok (name, content) =>
      handleQueryResponse decoder
        (transport (buildQueryRequest min_confidence name content))
  else Except.error EmyError.invalidArgument

/-- The CLI `insert_track` (src main.rs lines 109-182): extract the
filename, read the file, generate a fresh v4 UUID (modelled as the `uuid`
parameter, the random generator's output in canonical string form), submit
with `Id` set to `"{uuid} {meta}"`, and on status 200 return the UUID. -/
def insert_track (fs : String → Option (List Nat))
    (transport : InsertTrackRequest → HttpResponse) (path : String)
    (uuid artist title meta : String) : Except EmyError String :=
  match fileName path with
  | none => Except.error EmyError.invalidPath
  | some name =>
    match fs path with
    | none => Except.error EmyError.ioError
    | some content =>
      let resp := transport (buildInsertTrackRequest uuid meta artist title name content)
      if resp.status = 200 then Except.ok uuid
      else Except.error (EmyError.serviceRejected resp.status resp.body)

/-- A JSON document, as the external textual parser delivers it to the
typed decoding layer.  Numbers carry the parsed value as a rational. -/
inductive Json where
  | null : Json
  | bool (b : Bool) : Json
  | num (q : ℚ) : Json
  | str (s : String) : Json
  | arr (elems : List Json) : Json
  | obj (fields : List (String × Json)) : Json

/-- Field lookup in a JSON object, by key (first occurrence).  Unknown
fields of the object are simply never looked up, matching serde's default
of ignoring them. -/
def jGet (fields : List (String × Json)) (k : String) : Option Json :=
  match fields with
  | [] => none
  | (k', v) :: rest => if k' = k then some v else jGet rest k

/-- Decode an `f32` field from a JSON number. -/
def decodeF32 : Json → Option F32
  | Json.num q => some (F32.num q)
  | _ => none

/-- Decode a string field. -/
def decodeString : Json → Option String
  | Json.str s => some s
  | _ => none

/-- Decode a boolean field. -/
def decodeBool : Json → Option Bool
  | Json.bool b => some b
  | _ => none

/-- Decode an `Option` field from its presence in the object: a missing or
null field is `none`, as in serde's derived handling of `Option`. -/
def decodeOptField (dec : Json → Option α) (fields : List (String × Json))
    (k : String) : Option (Option α) :=
  match jGet fields k with
  | none => some none
  | some Json.null => some none
  | some v => (dec v).map some

/-- Decode a required field: missing means failure. -/
def decodeReqField (dec : Json → Option α) (fields : List (String × Json))
    (k : String) : Option α :=
  (jGet fields k).bind dec

/-- Decode a `Gap` from a JSON object, with serde's camelCase keys. -/
def decodeGap : Json → Option Gap
  | Json.obj fields =>
    match decodeReqField decodeF32 fields "start",
          decodeReqField decodeF32 fields "end",
          decodeReqField decodeBool fields "isOnEdge",
          decodeReqField decodeF32 fields "lengthInSeconds" with
    | some s, some e, some edge, some len =>
      some { start := s, end_ := e, is_on_edge := edge, length_in_seconds := len }
    | _, _, _, _ => none
  | _ => none

/-- Decode each element of a list of JSON values as a gap, failing if any
element fails. -/
def decodeGapList : List Json → Option (List Gap)
  | [] => some []
  | j :: rest =>
    match decodeGap j, decodeGapList rest with
    | some g, some gs => some (g :: gs)
    | _, _ => none

/-- Decode a JSON array of gaps. -/
def decodeGaps : Json → Option (List Gap)
  | Json.arr elems => decodeGapList elems
  | _ => none

/-- Decode an `AudioCoverage` from a JSON object. -/
def decodeAudioCoverage : Json → Option AudioCoverage
  | Json.obj fields =>
    match decodeReqField decodeF32 fields "queryMatchStartsAt",
          decodeReqField decodeF32 fields "trackMatchStartsAt",
          decodeOptField decodeF32 fields "queryCoverage",
          decodeOptField decodeF32 fields "trackCoverage",
          decodeReqField decodeF32 fields "queryCoverageLength",
          decodeReqField decodeF32 fields "trackCoverageLength" with
    | some qms, some tms, some qc, some tc, some qcl, some tcl =>
      match decodeReqField decodeF32 fields "queryDiscreteCoverageLength",
            decodeReqField decodeF32 fields "trackDiscreteCoverageLength",
            decodeReqField decodeF32 fields "queryLength",
            decodeReqField decodeF32 fields "trackLength",
            decodeReqField decodeGaps fields "queryGaps",
            decodeReqField decodeGaps fields "trackGaps" with
      | some qdcl, some tdcl, some ql, some tl, some qgaps, some tgaps =>
        some { query_match_starts_at := qms, track_match_starts_at := tms,
               query_coverage := qc, track_coverage := tc,
               query_coverage_length := qcl, track_coverage_length := tcl,
               query_discrete_coverage_length := qdcl,
               track_discrete_coverage_length := tdcl,
               query_length := ql, track_length := tl,
               query_gaps := qgaps, track_gaps := tgaps }
      | _, _, _, _, _, _ => none
    | _, _, _, _, _, _ => none
  | _ => none

/-- Decode an `AudioMatch`; the `id` field is renamed `queryMatchId`. -/
def decodeAudioMatch : Json → Option AudioMatch
  | Json.obj fields =>
    match decodeReqField decodeString fields "queryMatchId",
          decodeReqField decodeAudioCoverage fields "coverage" with
    | some i, some cov => some { id := i, coverage := cov }
    | _, _ => none
  | _ => none

/-- Decode a `TrackInfo`; the `length` field is renamed
`audioTrackLength`, `title` and `artist` are optional. -/
def decodeTrackInfo : Json → Option TrackInfo
  | Json.obj fields =>
    match decodeReqField decodeString fields "id",
          decodeOptField decodeString fields "title",
          decodeOptField decodeString fields "artist",
          decodeReqField decodeF32 fields "audioTrackLength" with
    | some i, some t, some a, some len =>
      some { id := i, title := t, artist := a, length := len }
    | _, _, _, _ => none
  | _ => none

/-- Decode one `QueryResult`; `audio` is optional. -/
def decodeQueryResult : Json → Option QueryResult
  | Json.obj fields =>
    match decodeReqField decodeString fields "id",
          decodeReqField decodeTrackInfo fields "track",
          decodeOptField decodeAudioMatch fields "audio" with
    | some i, some tr, some au => some { id := i, track := tr, audio := au }
    | _, _, _ => none
  | _ => none

/-- Decode each element of a list of JSON values as a query result,
failing if any element fails. -/
def decodeResultList : List Json → Option (List QueryResult)
  | [] => some []
  | j :: rest =>
    match decodeQueryResult j, decodeResultList rest with
    | some r, some rs => some (r :: rs)
    | _, _ => none

/-- Decode the whole response body: a JSON array of query results
(`Vec<QueryResult>` in the source). -/
def decodeQueryResults : Json → Option (List QueryResult)
  | Json.arr elems => decodeResultList elems
  | _ => none

/-- The literal JSON array of the spec's testable-properties section, as
the textual parser delivers it. -/
def specLiteralJson : Json :=
  Json.arr [Json.obj [
    ("id", Json.str "m1"),
    ("track", Json.obj [
      ("id", Json.str "t1"),
      ("title", Json.str "X"),
      ("artist", Json.str "Y"),
      ("audioTrackLength", Json.num (3952/100))]),
    ("audio", Json.obj [
      ("queryMatchId", Json.str "q1"),
      ("coverage", Json.obj [
        ("queryMatchStartsAt", Json.num 0),
        ("trackMatchStartsAt", Json.num 0),
        ("queryCoverage", Json.num (9/10)),
        ("trackCoverage", Json.num (1/10)),
        ("queryCoverageLength", Json.num (45/10)),
        ("trackCoverageLength", Json.num (45/10)),
        ("queryDiscreteCoverageLength", Json.num (45/10)),
        ("trackDiscreteCoverageLength", Json.num (45/10)),
        ("queryLength", Json.num 5),
        ("trackLength", Json.num (395/10)),
        ("queryGaps", Json.arr []),
        ("trackGaps", Json.arr [Json.obj [
          ("start", Json.num (45/10)),
          ("end", Json.num (395/10)),
          ("isOnEdge", Json.bool true),
          ("lengthInSeconds", Json.num 35)]])])])]]

/-- Injective encoding of a list of naturals into one natural, via the
Cantor pairing function. -/
def encodeListNat : List Nat → Nat
  | [] => 0
  | x :: xs => Nat.pair x (encodeListNat xs) + 1

/-- Injective encoding of a string into a natural, through its character
codes. -/
def strEncode (s : String) : Nat :=
  encodeListNat (s.data.map Char.toNat)

/-- Modelled from the spec: the deterministic identity policy of section 3
("a deterministically derived 128-bit identifier computed as a stable
(non-random, version-5-equivalent) hash over a fixed-format concatenation
of artist, title, and caller-supplied metadata string") is absent from
src/ — the CLI's `insert_track` generates a random v4 UUID instead.  The
version-5-equivalent hash is idealised as a collision-free stable function
(the spec's own hedge: "no collision for the tested corpus"), modelled as
an injective pairing of the three inputs. -/
def identity (artist title meta : String) : Nat :=
  Nat.pair (strEncode artist) (Nat.pair (strEncode title) (strEncode meta))

/-! ## Theorems -/

theorem encodeListNat_injective : Function.Injective encodeListNat := by
  intro xs
  induction xs with
  | nil =>
    intro ys h
    cases ys with
    | nil => rfl
    | cons y ys => exact absurd h.symm (Nat.succ_ne_zero _)
  | cons x xs ih =>
    intro ys h
    cases ys with
    | nil => exact absurd h (Nat.succ_ne_zero _)
    | cons y ys =>
      have h' := Nat.pair_eq_pair.mp (Nat.add_right_cancel h)
      rw [h'.1, ih h'.2]

theorem char_toNat_injective : Function.Injective Char.toNat := fun _ _ h =>
  Char.eq_of_val_eq (UInt32.toNat.inj h)

theorem strEncode_injective : Function.Injective strEncode := fun _ _ h =>
  String.ext
    (List.map_injective_iff.mpr char_toNat_injective (encodeListNat_injective h))

/-- C1 counterexample: at a concrete input with a 200 response, the CLI
insert succeeds but returns `"u"`, while the identifier string submitted in
the request's `Id` field is `"u x"` (the UUID composed with the meta
string) — not the returned identifier. -/
theorem c1_counterexample :
    insert_track (fun _ => some [1]) (fun _ => { status := 200, body := "" })
        "a/f.mp3" "u" "A" "T" "x" = Except.ok "u" ∧
    (buildInsertTrackRequest "u" "x" "A" "T" "f.mp3" [1]).idField = "u x" ∧
    ("u" : String) ≠ "u x" :=
  ⟨rfl, rfl, by decide⟩

/-- C1 (amended): on HTTP 200 the insert operation succeeds; the CLI
`insert_track` returns the freshly generated UUID, while the `Id` field it
submitted is the UUID followed by a space and the meta string, and the
library `insert` returns unit. -/
theorem c1_insert_200_succeeds
    (fs : String → Option (List Nat))
    (transportT : InsertTrackRequest → HttpResponse)
    (transportI : InsertRequest → HttpResponse)
    (path uuid artist title meta name : String) (content : List Nat)
    (source : MediaSource) (id artist2 title2 name2 : String)
    (content2 : List Nat)
    (hname : fileName path = some name)
    (hread : fs path = some content)
    (h200 : (transportT (buildInsertTrackRequest uuid meta artist title name content)).status = 200)
    (hres : resolveSource fs source = Except.ok (name2, content2))
    (h200i : (transportI (buildInsertRequest id artist2 title2 name2 content2)).status = 200) :
    insert_track fs transportT path uuid artist title meta = Except.ok uuid ∧
    (buildInsertTrackRequest uuid meta artist title name content).idField =
      uuid ++ " " ++ meta ∧
    insert fs transportI source id artist2 title2 = Except.ok () := by
  refine ⟨?_, rfl, ?_⟩
  · simp [insert_track, hname, hread, h200]
  · simp [insert, hres, handleInsertResponse, h200i]

/-- C1 witness: the amended statement at a concrete input. -/
theorem c1_insert_200_succeeds_witness :
    insert_track (fun _ => some [1]) (fun _ => { status := 200, body := "" })
        "a/f.mp3" "u" "A" "T" "x" = Except.ok "u" ∧
    (buildInsertTrackRequest "u" "x" "A" "T" "f.mp3" [1]).idField = "u" ++ " " ++ "x" ∧
    insert (fun _ => some [1]) (fun _ => { status := 200, body := "" })
        (MediaSource.bytes "b.mp3" [2]) "i" "A2" "T2" = Except.ok () :=
  c1_insert_200_succeeds (fun _ => some [1]) (fun _ => { status := 200, body := "" })
    (fun _ => { status := 200, body := "" }) "a/f.mp3" "u" "A" "T" "x" "f.mp3" [1]
    (MediaSource.bytes "b.mp3" [2]) "i" "A2" "T2" "b.mp3" [2]
    (by decide) rfl rfl rfl rfl

/-- C2: when validation passes and the source resolves, the query
operation hands the transport exactly the request built by
`buildQueryRequest`, whose query-string parameters are exactly
`mediaType=Audio`, the minimum-coverage threshold rendered from the
caller-supplied `min_confidence`, and `registerMatches=true`. -/
theorem c2_query_params (fs : String → Option (List Nat))
    (decoder : String → Option (List QueryResult))
    (transport : QueryRequest → HttpResponse) (source : MediaSource)
    (c : F32) (name : String) (content : List Nat)
    (hconf : checkConfidence c = true)
    (hres : resolveSource fs source = Except.ok (name, content)) :
    query fs decoder transport source c =
      handleQueryResponse decoder (transport (buildQueryRequest c name content)) ∧
    (buildQueryRequest c name content).params =
      [("mediaType", "Audio"), ("minCoverage", F32.render c),
       ("registerMatches", "true")] := by
  refine ⟨?_, rfl⟩
  simp [query, hconf, hres]

/-- C2 witness: the statement at a concrete input. -/
theorem c2_query_params_witness :
    query (fun _ => none) (fun _ => some []) (fun _ => { status := 200, body := "[]" })
        (MediaSource.bytes "b.mp3" [2]) (F32.num 0) =
      handleQueryResponse (fun _ => some [])
        ((fun _ => { status := 200, body := "[]" })
          (buildQueryRequest (F32.num 0) "b.mp3" [2])) ∧
    (buildQueryRequest (F32.num 0) "b.mp3" [2]).params =
      [("mediaType", "Audio"), ("minCoverage", F32.render (F32.num 0)),
       ("registerMatches", "true")] :=
  c2_query_params (fun _ => none) (fun _ => some [])
    (fun _ => { status := 200, body := "[]" }) (MediaSource.bytes "b.mp3" [2])
    (F32.num 0) "b.mp3" [2] (by decide) rfl

/-- C3: the query operation fails with the invalid-argument error for any
finite `min_confidence` outside `[0,1]` — for every source, so also for an
unresolvable one, since the check precedes resolution; the range check
rejects `-0.01` and `1.01` and accepts the boundary values `0` and `1`,
with which the operation proceeds to the transport step. -/
theorem c3_min_confidence_validation :
    (∀ (fs : String → Option (List Nat))
       (decoder : String → Option (List QueryResult))
       (transport : QueryRequest → HttpResponse) (source : MediaSource) (q : ℚ),
       q < 0 ∨ 1 < q →
       query fs decoder transport source (F32.num q) =
         Except.error EmyError.invalidArgument) ∧
    (checkConfidence (F32.num (-1/100)) = false ∧
     checkConfidence (F32.num (101/100)) = false) ∧
    (checkConfidence (F32.num 0) = true ∧ checkConfidence (F32.num 1) = true) ∧
    (∀ (fs : String → Option (List Nat))
       (decoder : String → Option (List QueryResult))
       (transport : QueryRequest → HttpResponse) (source : MediaSource)
       (c : F32) (name : String) (content : List Nat),
       checkConfidence c = true →
       resolveSource fs source = Except.ok (name, content) →
       query fs decoder transport source c =
         handleQueryResponse decoder (transport (buildQueryRequest c name content))) := by
  refine ⟨?_, ⟨?_, ?_⟩, ⟨by decide, by decide⟩, ?_⟩
  · intro fs decoder transport source q h
    have hc : checkConfidence (F32.num q) = false := by
      rcases h with h | h
      · simp [checkConfidence, F32.ge, F32.le, not_le.mpr h]
      · simp [checkConfidence, F32.ge, F32.le, not_le.mpr h]
    simp [query, hc]
  · norm_num [checkConfidence, F32.ge, F32.le]
  · norm_num [checkConfidence, F32.ge, F32.le]
  · intro fs decoder transport source c name content hconf hres
    simp [query, hconf, hres]

/-- C3 witness: an out-of-range value (exactly `-1/100`) fails with the
invalid-argument error even on a source with no extractable filename, and
the boundary value `0` reaches the transport step. -/
theorem c3_min_confidence_validation_witness :
    query (fun _ => none) (fun _ => some []) (fun _ => { status := 200, body := "[]" })
        (MediaSource.file "/") (F32.num (Rat.mk' (-1) 100 (by decide) (by decide))) =
      Except.error EmyError.invalidArgument ∧
    query (fun _ => none) (fun _ => some []) (fun _ => { status := 200, body := "[]" })
        (MediaSource.bytes "b.mp3" [2]) (F32.num 0) =
      handleQueryResponse (fun _ => some [])
        ((fun _ => { status := 200, body := "[]" })
          (buildQueryRequest (F32.num 0) "b.mp3" [2])) :=
  ⟨c3_min_confidence_validation.1 (fun _ => none) (fun _ => some [])
      (fun _ => { status := 200, body := "[]" }) (MediaSource.file "/")
      (Rat.mk' (-1) 100 (by decide) (by decide)) (Or.inl (by decide)),
   c3_min_confidence_validation.2.2.2 (fun _ => none) (fun _ => some [])
      (fun _ => { status := 200, body := "[]" }) (MediaSource.bytes "b.mp3" [2])
      (F32.num 0) "b.mp3" [2] (by decide) rfl⟩

/-- C4: resolving a file source yields the path's final segment as display
name (together with the read content) whenever `Path::file_name` extracts
one, and fails with the invalid-path error whenever it does not. -/
theorem c4_from_file_resolution :
    (∀ (fs : String → Option (List Nat)) (path name : String) (content : List Nat),
       fileName path = some name → fs path = some content →
       resolveSource fs (MediaSource.file path) = Except.ok (name, content)) ∧
    (∀ (fs : String → Option (List Nat)) (path : String),
       fileName path = none →
       resolveSource fs (MediaSource.file path) = Except.error EmyError.invalidPath) := by
  constructor
  · intro fs path name content hname hread
    simp [resolveSource, resolveFileName, resolveContent, hname, hread]
  · intro fs path hname
    simp [resolveSource, resolveFileName, hname]

/-- C4 witness: the path `dir/song.mp3` resolves to display name
`song.mp3`, and the segment-free path `/` fails with the invalid-path
error. -/
theorem c4_from_file_resolution_witness :
    resolveSource (fun _ => some [7]) (MediaSource.file "dir/song.mp3") =
      Except.ok ("song.mp3", [7]) ∧
    resolveSource (fun _ => some [7]) (MediaSource.file "/") =
      Except.error EmyError.invalidPath :=
  ⟨c4_from_file_resolution.1 (fun _ => some [7]) "dir/song.mp3" "song.mp3" [7]
      (by decide) rfl,
   c4_from_file_resolution.2 (fun _ => some [7]) "/" (by decide)⟩

/-- C5: resolving a bytes source always succeeds, with exactly the given
name as display name and exactly the given bytes as payload. -/
theorem c5_from_bytes_resolution (fs : String → Option (List Nat))
    (name : String) (data : List Nat) :
    resolveSource fs (MediaSource.bytes name data) = Except.ok (name, data) := rfl

/-- C6: any response with a status other than 200 yields, on both
operations, the service-rejection error carrying that status and the raw
body text; the query result does not depend on the JSON decoder at all, so
the body is never decoded. -/
theorem c6_non_success_service_rejected (status : Nat) (body : String)
    (h : status ≠ 200) :
    (∀ decoder : String → Option (List QueryResult),
       handleQueryResponse decoder { status := status, body := body } =
         Except.error (EmyError.serviceRejected status body)) ∧
    handleInsertResponse { status := status, body := body } =
      Except.error (EmyError.serviceRejected status body) := by
  constructor
  · intro decoder
    simp [handleQueryResponse, h]
  · simp [handleInsertResponse, h]

/-- C6 witness: a 500 response with body `boom`, against a decoder that
would accept any body — the rejection error is produced anyway. -/
theorem c6_non_success_service_rejected_witness :
    handleQueryResponse (fun _ => some []) { status := 500, body := "boom" } =
      Except.error (EmyError.serviceRejected 500 "boom") ∧
    handleInsertResponse { status := 500, body := "boom" } =
      Except.error (EmyError.serviceRejected 500 "boom") :=
  ⟨(c6_non_success_service_rejected 500 "boom" (by decide)).1 (fun _ => some []),
   (c6_non_success_service_rejected 500 "boom" (by decide)).2⟩

/-- C7: decoding the spec's literal JSON array yields exactly one result,
whose `track.id` is `t1` and whose audio coverage's first track gap has
`lengthInSeconds` equal to `35.0`. -/
theorem c7_literal_decode :
    (decodeQueryResults specLiteralJson).map List.length = some 1 ∧
    ((decodeQueryResults specLiteralJson).bind fun l =>
       l.head?.map fun r => r.track.id) = some "t1" ∧
    ((decodeQueryResults specLiteralJson).bind fun l =>
       l.head?.bind fun r => r.audio.bind fun a =>
         a.coverage.track_gaps.head?.map fun g => g.length_in_seconds) =
      some (F32.num 35) :=
  ⟨rfl, rfl, rfl⟩

/-- C8: a 200 query response whose body decodes to the empty array is a
success of the whole query operation, returning the empty list. -/
theorem c8_empty_results_success (fs : String → Option (List Nat))
    (decoder : String → Option (List QueryResult))
    (transport : QueryRequest → HttpResponse) (source : MediaSource)
    (c : F32) (name : String) (content : List Nat)
    (hconf : checkConfidence c = true)
    (hres : resolveSource fs source = Except.ok (name, content))
    (h200 : (transport (buildQueryRequest c name content)).status = 200)
    (hdec : decoder (transport (buildQueryRequest c name content)).body = some []) :
    query fs decoder transport source c = Except.ok [] := by
  simp [query, hconf, hres, handleQueryResponse, h200, hdec]

/-- C8 witness: the statement at a concrete input. -/
theorem c8_empty_results_success_witness :
    query (fun _ => none) (fun _ => some []) (fun _ => { status := 200, body := "[]" })
        (MediaSource.bytes "b.mp3" [2]) (F32.num 1) = Except.ok [] :=
  c8_empty_results_success (fun _ => none) (fun _ => some [])
    (fun _ => { status := 200, body := "[]" }) (MediaSource.bytes "b.mp3" [2])
    (F32.num 1) "b.mp3" [2] (by decide) rfl rfl rfl

/-- C9: the spec-modelled deterministic identity over (artist, title,
meta) is referentially transparent — identical inputs give an identical
identifier — and changing any one of the three inputs changes the
identifier. -/
theorem c9_deterministic_identity :
    (∀ artist title meta, identity artist title meta = identity artist title meta) ∧
    (∀ a a' t m, a ≠ a' → identity a t m ≠ identity a' t m) ∧
    (∀ a t t' m, t ≠ t' → identity a t m ≠ identity a t' m) ∧
    (∀ a t m m', m ≠ m' → identity a t m ≠ identity a t m') := by
  refine ⟨fun _ _ _ => rfl, ?_, ?_, ?_⟩
  · intro a a' t m hne heq
    exact hne (strEncode_injective (Nat.pair_eq_pair.mp heq).1)
  · intro a t t' m hne heq
    exact hne (strEncode_injective
      (Nat.pair_eq_pair.mp (Nat.pair_eq_pair.mp heq).2).1)
  · intro a t m m' hne heq
    exact hne (strEncode_injective
      (Nat.pair_eq_pair.mp (Nat.pair_eq_pair.mp heq).2).2)

/-- C9 witness: determinism and the three single-input changes at concrete
strings. -/
theorem c9_deterministic_identity_witness :
    identity "a" "t" "m" = identity "a" "t" "m" ∧
    identity "a" "t" "m" ≠ identity "b" "t" "m" ∧
    identity "a" "t" "m" ≠ identity "a" "u" "m" ∧
    identity "a" "t" "m" ≠ identity "a" "t" "n" :=
  ⟨c9_deterministic_identity.1 "a" "t" "m",
   c9_deterministic_identity.2.1 "a" "b" "t" "m" (by decide),
   c9_deterministic_identity.2.2.1 "a" "t" "u" "m" (by decide),
   c9_deterministic_identity.2.2.2 "a" "t" "m" "n" (by decide)⟩

/-- C10: a NaN `min_confidence` fails the query operation with the
invalid-argument error for every source and transport — so before any
resolution or network step — because both comparisons of the range check
are false on NaN. -/
theorem c10_nan_invalid_argument :
    (∀ (fs : String → Option (List Nat))
       (decoder : String → Option (List QueryResult))
       (transport : QueryRequest → HttpResponse) (source : MediaSource),
       query fs decoder transport source F32.nan =
         Except.error EmyError.invalidArgument) ∧
    F32.ge F32.nan (F32.num 0) = false ∧ F32.le F32.nan (F32.num 1) = false :=
  ⟨fun _ _ _ _ => rfl, rfl, rfl⟩

end EmySound
